import Mathlib

/-!
Verification of the Eternauta firmware (src/Eternauta.ino) against its
natural-language specification.

The development is a shallow embedding of the firmware's state and of the
functions cited by the claims:

* `verificarArchivos`, `leerComandoSerial`, `activarModoWeb`, `setup`,
  `loop` (here `pasoLoop`), `gestionarPulsadores`,
  `gestionarReproduccionAudio`, `reproducirFraseAleatoria`,
  `handleFileUpload`, `handleDelete`, and the `POST /upload` completion
  lambda of `setupServidorWeb` (here `alCompletarSubida`).

Modelling conventions:

* SPIFFS is a flat list of files `(ruta, contenido)` plus two lists naming
  files whose audio-source `open` fails (`fallaApertura`) and files whose
  `SPIFFS.open(.., "w")` fails (`fallaEscritura`).  These lists stand for
  the environment-dependent failure modes of the opaque storage backend.
* The MP3 decoder and its SPIFFS source are modelled jointly by
  `EstadoAudio.fuente : Option Nat`: `some n` means the source is open and
  the decoder running with `n` further successful `loop()` calls pending;
  the `loop()` call made when `n = 0` returns `false` (end of stream
  detected), upon which the firmware stops the decoder and closes the
  source.  `none` means no source is open and the decoder is not running.
* `millis()` is a monotonically increasing `Nat` supplied as part of each
  iteration's input; the unsigned subtraction `millis() - t0` of the
  source becomes truncated `Nat` subtraction, which agrees with it on
  monotone traces.
* `delay(ms)` calls are accounted for by a second component of the loop
  step: `pasoLoop` returns the next state together with the total number
  of milliseconds the iteration spent inside `delay`.
-/

/-- `CANTIDAD_TOTAL_FRASES` of the source (line 38). -/
def CANTIDAD_TOTAL_FRASES : Nat := 14

/-- `demora_antirrebote` of `gestionarPulsadores` (line 225), in ms. -/
def demora_antirrebote : Nat := 50

/-- The SPIFFS storage: flat root-level files with their contents (byte
lists), plus the names for which the opaque backend's audio-source open,
resp. open-for-write, fails. -/
structure SistemaArchivos where
  archivos : List (String × List Nat)
  fallaApertura : List String
  fallaEscritura : List String
deriving DecidableEq, Repr

/-- `SPIFFS.exists(ruta)`. -/
def existe (fs : SistemaArchivos) (ruta : String) : Bool :=
  fs.archivos.any (fun par => par.1 == ruta)

/-- Content of a stored file, if present. -/
def contenido (fs : SistemaArchivos) (ruta : String) : Option (List Nat) :=
  (fs.archivos.find? (fun par => par.1 == ruta)).map (fun par => par.2)

/-- `SPIFFS.remove(ruta)`. -/
def remover (fs : SistemaArchivos) (ruta : String) : SistemaArchivos :=
  { fs with archivos := fs.archivos.filter (fun par => !(par.1 == ruta)) }

/-- Committing (closing) a file written via `SPIFFS.open(ruta, "w")`:
the written bytes become the stored content of `ruta`. -/
def escribir (fs : SistemaArchivos) (ruta : String) (datos : List Nat) :
    SistemaArchivos :=
  { fs with archivos := (ruta, datos) :: (remover fs ruta).archivos }

/-- `fuente_audio->open(ruta)` (`AudioFileSourceSPIFFS`): succeeds iff the
file exists and is not in the open-failure list; on success the stream has
as many pending decode units as the file has bytes. -/
def abrirFuente (fs : SistemaArchivos) (ruta : String) : Option Nat :=
  if fs.fallaApertura.contains ruta then none
  else (contenido fs ruta).map List.length

/-- The file name template `sprintf("/frase%d.mp3", k)` (lines 85, 294). -/
def nombreFrase (k : Nat) : String :=
  "/frase" ++ toString k ++ ".mp3"

/-- `verificarArchivos()` (lines 76-99): true iff `/frase1.mp3` ..
`/frase14.mp3` all exist in SPIFFS. -/
def verificarArchivos (fs : SistemaArchivos) : Bool :=
  (List.range CANTIDAD_TOTAL_FRASES).all (fun i => existe fs (nombreFrase (i + 1)))

/-- The playback-session globals (lines 52-56): `reproduccion_en_curso`
plus the joint decoder/source handle (see the module docstring). -/
structure EstadoAudio where
  reproduccion_en_curso : Bool
  fuente : Option Nat
deriving DecidableEq, Repr

/-- Result reported (via serial prints and early returns) by
`reproducirFraseAleatoria` (lines 287-317). -/
inductive ResultadoReproduccion where
  | iniciada
  | archivoInexistente
  | errorAlAbrir
deriving DecidableEq, Repr

/-- `reproducirFraseAleatoria()` (lines 287-317), with the random draw
`numero` (the value of `random(1, CANTIDAD_TOTAL_FRASES + 1)`) passed as
input.  Note the function performs no check of `reproduccion_en_curso`:
an existing open stream is simply replaced when open succeeds. -/
def reproducirFraseAleatoria (fs : SistemaArchivos) (st : EstadoAudio)
    (numero : Nat) : EstadoAudio × ResultadoReproduccion :=
  let ruta := nombreFrase numero
  if !(existe fs ruta) then
    (st, ResultadoReproduccion.archivoInexistente)
  else
    match abrirFuente fs ruta with
    | none => (st, ResultadoReproduccion.errorAlAbrir)
    | some n =>
      ({ reproduccion_en_curso := true, fuente := some n },
       ResultadoReproduccion.iniciada)

/-- `gestionarReproduccionAudio()` (lines 268-282): while busy, one
`reproductor_mp3->loop()` call; when it reports end of stream the decoder
is stopped, the source closed and the busy flag cleared, all within the
same iteration. -/
def gestionarReproduccionAudio (st : EstadoAudio) : EstadoAudio :=
  if st.reproduccion_en_curso then
    match st.fuente with
    | some 0 => { reproduccion_en_curso := false, fuente := none }
    | some (n + 1) => { st with fuente := some n }
    | none => st
  else st

/-- Debounce state of one button: the `static` pair
(`estado_anterior_*`, `ultimo_tiempo_*`) of `gestionarPulsadores`
(lines 228-229 and 248-249).  `true` is the HIGH (resting) level. -/
structure EstadoPulsador where
  estado_anterior : Bool
  ultimo_tiempo : Nat
deriving DecidableEq, Repr

/-- One poll of one button, the per-channel logic of
`gestionarPulsadores` (lines 236-245 resp. 253-261): on a falling edge
(raw LOW while the previous raw sample was HIGH) the edge is accepted iff
more than `demora_antirrebote` ms have passed since the previous recorded
edge; the edge time is then recorded.  Returns (edge accepted?, new
state). -/
def pasoAntirrebote (p : EstadoPulsador) (nivel : Bool) (ahora : Nat) :
    Bool × EstadoPulsador :=
  if !nivel && p.estado_anterior then
    (decide (demora_antirrebote < ahora - p.ultimo_tiempo),
     { estado_anterior := nivel, ultimo_tiempo := ahora })
  else
    (false, { p with estado_anterior := nivel })

/-- Number of accepted (debounced) edges over a trace of
`(raw level, millis)` samples, one sample per scheduler iteration. -/
def eventosAntirrebote (p : EstadoPulsador) : List (Bool × Nat) → Nat
  | [] => 0
  | m :: resto =>
    let r := pasoAntirrebote p m.1 m.2
    (if r.1 then 1 else 0) + eventosAntirrebote r.2 resto

/-- The chunk events delivered to `handleFileUpload` by the HTTP layer:
`upload.status` together with the data each status carries
(`UPLOAD_FILE_START`, `UPLOAD_FILE_WRITE`, `UPLOAD_FILE_END`). -/
inductive EventoSubida where
  | inicio (nombre : String)
  | escritura (datos : List Nat)
  | fin
deriving DecidableEq, Repr

/-- Whether an upload event is `UPLOAD_FILE_START`. -/
def esInicio : EventoSubida → Bool
  | EventoSubida.inicio _ => true
  | _ => false

/-- `filename.startsWith("/")`: the name's first character is '/'. -/
def empiezaConBarra (nombre : String) : Bool :=
  match nombre.data with
  | [] => false
  | c :: _ => c == '/'

/-- The filename normalisation of `handleFileUpload` (lines 429-431):
prepend '/' when absent. -/
def normalizarNombre (nombre : String) : String :=
  if empiezaConBarra nombre then nombre else "/" ++ nombre

/-- `handleFileUpload()` (lines 409-463).  State threaded through:
the storage and the global `archivoDeSubida` write handle, modelled as
`some (ruta, bytes written so far)` while a valid file is open for
writing and `none` otherwise (the source's `if (archivoDeSubida)`
validity test).  The third component is the HTTP status sent by this
call, if any.  Bytes written to an open handle become stored content only
when the handle is closed (`escribir`). -/
def handleFileUpload (reproduccion_en_curso : Bool) (fs : SistemaArchivos)
    (archivoDeSubida : Option (String × List Nat)) (ev : EventoSubida) :
    SistemaArchivos × Option (String × List Nat) × Option Nat :=
  if reproduccion_en_curso && esInicio ev then
    (fs, archivoDeSubida, some 409)
  else if reproduccion_en_curso then
    (fs, archivoDeSubida, none)
  else
    match ev with
    | EventoSubida.inicio nombre0 =>
      let nombre := normalizarNombre nombre0
      let fs1 := if existe fs nombre then remover fs nombre else fs
      if fs1.fallaEscritura.contains nombre then (fs1, none, none)
      else (fs1, some (nombre, []), none)
    | EventoSubida.escritura datos =>
      match archivoDeSubida with
      | some nc => (fs, some (nc.1, nc.2 ++ datos), none)
      | none => (fs, none, none)
    | EventoSubida.fin =>
      match archivoDeSubida with
      | some nc => (escribir fs nc.1 nc.2, none, none)
      | none => (fs, none, none)

/-- The anonymous on-complete handler installed for `POST /upload` in
`setupServidorWeb` (lines 520-530): re-runs `verificarArchivos` and
unconditionally answers 303 (redirect to `/`). -/
def alCompletarSubida (fs : SistemaArchivos) : Bool × Nat :=
  (verificarArchivos fs, 303)

/-- `handleDelete()` (lines 469-500).  Takes the busy flag, the storage,
the current `archivos_ok` flag and the optional `filename` argument;
returns the new storage, the new `archivos_ok` and the HTTP status. -/
def handleDelete (reproduccion_en_curso : Bool) (fs : SistemaArchivos)
    (archivos_ok : Bool) (argNombre : Option String) :
    SistemaArchivos × Bool × Nat :=
  if reproduccion_en_curso then (fs, archivos_ok, 409)
  else
    match argNombre with
    | some nombre =>
      let rutaCompleta := "/" ++ nombre
      if existe fs rutaCompleta then
        let fs1 := remover fs rutaCompleta
        (fs1, verificarArchivos fs1, 303)
      else (fs, archivos_ok, 404)
    | none => (fs, archivos_ok, 400)

/-- Sequentially feed a list of upload chunk events into
`handleFileUpload` with a fixed busy flag, threading storage and write
handle. -/
def procesarEventosSubida (reproduccion_en_curso : Bool)
    (inicial : SistemaArchivos × Option (String × List Nat)) :
    List EventoSubida → SistemaArchivos × Option (String × List Nat)
  | [] => inicial
  | ev :: resto =>
    let r := handleFileUpload reproduccion_en_curso inicial.1 inicial.2 ev
    procesarEventosSubida reproduccion_en_curso (r.1, r.2.1) resto

/-- One pending request increment, as delivered by
`servidorWeb.handleClient()` during one scheduler iteration: either
nothing, one of the routed handlers, one upload chunk, or the upload
completion callback. -/
inductive Peticion where
  | raiz
  | subida (ev : EventoSubida)
  | subidaCompleta
  | borrar (argNombre : Option String)
  | otra
deriving DecidableEq, Repr

/-- The complete global state of the firmware (lines 52-63), including
the storage contents. -/
structure Sistema where
  fs : SistemaArchivos
  servidor_web_activo : Bool
  archivos_ok : Bool
  archivoDeSubida : Option (String × List Nat)
  pulsadorPlay : EstadoPulsador
  pulsadorReset : EstadoPulsador
  audio : EstadoAudio
deriving DecidableEq, Repr

/-- The state right after `setup()` completes (lines 163-199) with
storage `fs`: web mode off, `archivos_ok` freshly computed, no upload in
progress, both debounce states at their `static` initialisers
(`HIGH`, `0`), playback idle with no open stream. -/
def sistemaInicial (fs : SistemaArchivos) : Sistema :=
  { fs := fs
    servidor_web_activo := false
    archivos_ok := verificarArchivos fs
    archivoDeSubida := none
    pulsadorPlay := { estado_anterior := true, ultimo_tiempo := 0 }
    pulsadorReset := { estado_anterior := true, ultimo_tiempo := 0 }
    audio := { reproduccion_en_curso := false, fuente := none } }

/-- The environment inputs consumed by one `loop()` iteration. -/
structure Entrada where
  peticion : Option Peticion
  linea_serial : Option String
  demoraWifi : Nat
  nivel_play : Bool
  nivel_reset : Bool
  ahora : Nat
  numero : Nat
deriving DecidableEq, Repr

/-- Dispatch of the request increment served by
`servidorWeb.handleClient()`: each routed handler applied to the current
state (HTTP responses are dropped here; the claims about them are stated
on the handlers directly). -/
def atenderPeticion (s : Sistema) : Option Peticion → Sistema
  | some (Peticion.subida ev) =>
    let r := handleFileUpload s.audio.reproduccion_en_curso s.fs
      s.archivoDeSubida ev
    { s with fs := r.1, archivoDeSubida := r.2.1 }
  | some Peticion.subidaCompleta =>
    { s with archivos_ok := verificarArchivos s.fs }
  | some (Peticion.borrar arg) =>
    let r := handleDelete s.audio.reproduccion_en_curso s.fs s.archivos_ok arg
    { s with fs := r.1, archivos_ok := r.2.1 }
  | _ => s

/-- First step of `loop()` (lines 207-209): serve the web client only
when the server is active. -/
def faseWeb (s : Sistema) (p : Option Peticion) : Sistema :=
  if s.servidor_web_activo then atenderPeticion s p else s

/-- `activarModoWeb()` (lines 121-157).  `demoraWifi` is the number of
500 ms waits after which the WiFi association succeeds; the source polls
at most 20 times, so association succeeds iff `demoraWifi ≤ 20`.  Returns
the new state and the milliseconds spent in `delay(500)` calls. -/
def activarModoWeb (s : Sistema) (demoraWifi : Nat) : Sistema × Nat :=
  if s.servidor_web_activo then (s, 0)
  else
    let espera := 500 * min demoraWifi 20
    if demoraWifi ≤ 20 then
      ({ s with servidor_web_activo := true }, espera)
    else (s, espera)

/-- `comando.trim()` of the Arduino `String` class: drop leading and
trailing whitespace, here over the character list. -/
def recortar (l : List Char) : List Char :=
  ((l.dropWhile Char.isWhitespace).reverse.dropWhile
    Char.isWhitespace).reverse

/-- `comando.toLowerCase()` of the Arduino `String` class, over the
character list. -/
def aMinusculas (l : List Char) : List Char :=
  l.map Char.toLower

/-- The command comparison of `leerComandoSerial` (line 111): the line,
trimmed and lower-cased, equals `web`. -/
def comandoEsWeb (l : String) : Bool :=
  aMinusculas (recortar l.data) == "web".data

/-- `leerComandoSerial()` (lines 105-115): read one line, trim it, lower
it, and dispatch the single recognised command `web`. -/
def leerComandoSerial (s : Sistema) (linea : Option String)
    (demoraWifi : Nat) : Sistema × Nat :=
  match linea with
  | none => (s, 0)
  | some l =>
    if comandoEsWeb l then activarModoWeb s demoraWifi
    else (s, 0)

/-- `gestionarPulsadores()` (lines 224-262): poll Play (starting playback
on an accepted edge only when idle), then poll Reset.  An accepted Reset
edge calls `delay(100)` and `ESP.restart()`, which never returns: the
result is `none` in that case (with the 100 ms delay), otherwise the
updated state. -/
def gestionarPulsadores (s : Sistema) (nivel_play nivel_reset : Bool)
    (ahora numero : Nat) : Option Sistema × Nat :=
  let rp := pasoAntirrebote s.pulsadorPlay nivel_play ahora
  let audio1 :=
    if rp.1 && !s.audio.reproduccion_en_curso then
      (reproducirFraseAleatoria s.fs s.audio numero).1
    else s.audio
  let rr := pasoAntirrebote s.pulsadorReset nivel_reset ahora
  if rr.1 then (none, 100)
  else
    (some { s with pulsadorPlay := rp.2, pulsadorReset := rr.2,
                   audio := audio1 }, 0)

/-- Outcome of one `loop()` iteration: the loop either continues with a
next state or the process halts.  The halt constructor exists so that the
absence of any fatal path inside the loop is a provable statement rather
than a typing accident; no branch of `pasoLoop` produces it. -/
inductive PasoLoop where
  | continua (s : Sistema)
  | detiene
deriving DecidableEq, Repr

/-- One full iteration of `loop()` (lines 205-215), in source order:
`servidorWeb.handleClient()` when active, `leerComandoSerial()`,
`gestionarPulsadores()` (an accepted Reset edge restarts the process:
the RAM state is reinitialised by a fresh `setup()`, storage persists),
then `gestionarReproduccionAudio()`.  The second component is the total
`delay()` time of the iteration in milliseconds. -/
def pasoLoop (s : Sistema) (e : Entrada) : PasoLoop × Nat :=
  let s1 := faseWeb s e.peticion
  let r2 := leerComandoSerial s1 e.linea_serial e.demoraWifi
  let r3 := gestionarPulsadores r2.1 e.nivel_play e.nivel_reset e.ahora e.numero
  match r3.1 with
  | none => (PasoLoop.continua (sistemaInicial r2.1.fs), r2.2 + r3.2)
  | some s3 =>
    (PasoLoop.continua { s3 with audio := gestionarReproduccionAudio s3.audio },
     r2.2 + r3.2)

/-- Result of `setup()` (lines 163-199): either the infinite halt loop of
line 175 (SPIFFS mount failure) or the ready state, carrying the
`archivos_ok` audit result. -/
inductive ResultadoArranque where
  | detenido
  | enEspera (archivos_ok : Bool)
deriving DecidableEq, Repr

/-- `setup()` (lines 163-199): `SPIFFS.begin` failure halts the process
(`while (true);`) before anything else runs; otherwise the startup file
audit runs and the system enters the waiting state. -/
def setup (montajeExitoso : Bool) (fs : SistemaArchivos) : ResultadoArranque :=
  if !montajeExitoso then ResultadoArranque.detenido
  else ResultadoArranque.enEspera (verificarArchivos fs)

/-- Run a list of loop iterations from a state. -/
def ejecutar (s : Sistema) : List Entrada → Sistema
  | [] => s
  | e :: resto =>
    match (pasoLoop s e).1 with
    | PasoLoop.continua s2 => ejecutar s2 resto
    | PasoLoop.detiene => s

/-- Boot followed by the event loop: when the SPIFFS mount fails, no loop
iteration ever executes (`none`); otherwise the loop runs on the supplied
inputs. -/
def arrancar (montajeExitoso : Bool) (fs : SistemaArchivos)
    (entradas : List Entrada) : Option Sistema :=
  match setup montajeExitoso fs with
  | ResultadoArranque.detenido => none
  | ResultadoArranque.enEspera _ => some (ejecutar (sistemaInicial fs) entradas)

/-- The states reachable from boot (with initial storage `fs0`) by any
sequence of scheduler iterations. -/
inductive Alcanzable (fs0 : SistemaArchivos) : Sistema → Prop
  | inicial : Alcanzable fs0 (sistemaInicial fs0)
  | paso (s s' : Sistema) (e : Entrada) :
      Alcanzable fs0 s → (pasoLoop s e).1 = PasoLoop.continua s' →
      Alcanzable fs0 s'

/-- The busy-flag invariant of the Playback Session: the flag is set iff
a stream handle is open (and, since the firmware closes the handle in the
same iteration in which the decoder reports end of stream, an open handle
is one whose exhaustion has not yet been detected). -/
def invariante (a : EstadoAudio) : Prop :=
  a.reproduccion_en_curso = a.fuente.isSome

/-- Empty storage. -/
def fsVacio : SistemaArchivos :=
  { archivos := [], fallaApertura := [], fallaEscritura := [] }

/-- Storage holding `/frase1.mp3` with three bytes of content. -/
def fsEjemplo : SistemaArchivos :=
  { archivos := [("/frase1.mp3", [1, 2, 3])], fallaApertura := [],
    fallaEscritura := [] }

/-- Storage holding a file `/a.mp3` that an upload will overwrite. -/
def fsConflicto : SistemaArchivos :=
  { archivos := [("/a.mp3", [7])], fallaApertura := [], fallaEscritura := [] }

/-- Storage on which opening `/x.mp3` for writing fails. -/
def fsSinEscritura : SistemaArchivos :=
  { archivos := [], fallaApertura := [], fallaEscritura := ["/x.mp3"] }

/-- An idle session: flag clear, no stream. -/
def audioLibre : EstadoAudio :=
  { reproduccion_en_curso := false, fuente := none }

/-- An active session mid-clip: flag set, five decode units pending. -/
def audioOcupado : EstadoAudio :=
  { reproduccion_en_curso := true, fuente := some 5 }

/-- A system state whose session is active mid-clip. -/
def sOcupado : Sistema :=
  { sistemaInicial fsEjemplo with audio := audioOcupado }

/-- A system state whose session is active with the stream about to
report end of data on the next decoder call. -/
def sOcupadoAgotado : Sistema :=
  { sistemaInicial fsEjemplo with
    audio := { reproduccion_en_curso := true, fuente := some 0 } }

/-- `sOcupado` after one poll that presses Play at t = 100 ms. -/
def sOcupadoTrasPulsa : Sistema :=
  { sOcupado with
    pulsadorPlay := { estado_anterior := false, ultimo_tiempo := 100 } }

/-- The state reached from `sistemaInicial fsEjemplo` by one iteration
that presses Play at t = 100 ms with draw 1: the three-byte clip opened,
one decode unit already consumed by the same iteration's decoder step. -/
def sTrasPulsa : Sistema :=
  { sistemaInicial fsEjemplo with
    pulsadorPlay := { estado_anterior := false, ultimo_tiempo := 100 }
    audio := { reproduccion_en_curso := true, fuente := some 2 } }

/-- An iteration input with no request, no serial line, both buttons at
rest. -/
def entradaNada : Entrada :=
  { peticion := none, linea_serial := none, demoraWifi := 0,
    nivel_play := true, nivel_reset := true, ahora := 0, numero := 1 }

/-- An iteration input pressing Play at t = 100 ms with draw 1. -/
def entradaPulsa : Entrada :=
  { entradaNada with nivel_play := false, ahora := 100 }

/-- An iteration input delivering the serial command `web` while the WiFi
association never completes within the 20 polls of `activarModoWeb`. -/
def entradaWebLenta : Entrada :=
  { entradaNada with linea_serial := some "web", demoraWifi := 21 }

/-- The interrupted upload of claim C6: the first chunk of `a.mp3` is
accepted while the session is idle, then the session becomes active and
the remaining chunks (one write, then the terminal chunk) arrive. -/
def subidaInterrumpida : SistemaArchivos × Option (String × List Nat) :=
  let p1 := handleFileUpload false fsVacio none (EventoSubida.inicio "a.mp3")
  procesarEventosSubida true (p1.1, p1.2.1)
    [EventoSubida.escritura [1, 2], EventoSubida.fin]


/-! ## Helper lemmas -/

/-- Request dispatch never touches the playback-session state: the web
handlers read `reproduccion_en_curso` but only the session mutates it. -/
theorem atenderPeticion_audio (s : Sistema) :
    ∀ p, (atenderPeticion s p).audio = s.audio
  | none => rfl
  | some Peticion.raiz => rfl
  | some (Peticion.subida _) => rfl
  | some Peticion.subidaCompleta => rfl
  | some (Peticion.borrar _) => rfl
  | some Peticion.otra => rfl

/-- Request dispatch does not touch the debounce states. -/
theorem atenderPeticion_pulsadores (s : Sistema) :
    ∀ p, (atenderPeticion s p).pulsadorPlay = s.pulsadorPlay ∧
         (atenderPeticion s p).pulsadorReset = s.pulsadorReset
  | none => ⟨rfl, rfl⟩
  | some Peticion.raiz => ⟨rfl, rfl⟩
  | some (Peticion.subida _) => ⟨rfl, rfl⟩
  | some Peticion.subidaCompleta => ⟨rfl, rfl⟩
  | some (Peticion.borrar _) => ⟨rfl, rfl⟩
  | some Peticion.otra => ⟨rfl, rfl⟩

/-- Request dispatch does not flip the web-server flag. -/
theorem atenderPeticion_activo (s : Sistema) :
    ∀ p, (atenderPeticion s p).servidor_web_activo = s.servidor_web_activo
  | none => rfl
  | some Peticion.raiz => rfl
  | some (Peticion.subida _) => rfl
  | some Peticion.subidaCompleta => rfl
  | some (Peticion.borrar _) => rfl
  | some Peticion.otra => rfl

/-- The web phase of the loop never touches the session state. -/
theorem faseWeb_audio (s : Sistema) (p : Option Peticion) :
    (faseWeb s p).audio = s.audio := by
  unfold faseWeb
  split
  · exact atenderPeticion_audio s p
  · rfl

/-- The web phase does not touch the debounce states. -/
theorem faseWeb_pulsadores (s : Sistema) (p : Option Peticion) :
    (faseWeb s p).pulsadorPlay = s.pulsadorPlay ∧
    (faseWeb s p).pulsadorReset = s.pulsadorReset := by
  unfold faseWeb
  split
  · exact atenderPeticion_pulsadores s p
  · exact ⟨rfl, rfl⟩

/-- The web phase does not flip the web-server flag. -/
theorem faseWeb_activo (s : Sistema) (p : Option Peticion) :
    (faseWeb s p).servidor_web_activo = s.servidor_web_activo := by
  unfold faseWeb
  split
  · exact atenderPeticion_activo s p
  · rfl

/-- The serial phase changes at most the web-server flag: session,
debounce states and storage pass through unchanged. -/
theorem leerComandoSerial_campos (s : Sistema) (l : Option String)
    (w : Nat) :
    (leerComandoSerial s l w).1.audio = s.audio ∧
    (leerComandoSerial s l w).1.pulsadorPlay = s.pulsadorPlay ∧
    (leerComandoSerial s l w).1.pulsadorReset = s.pulsadorReset ∧
    (leerComandoSerial s l w).1.fs = s.fs := by
  unfold leerComandoSerial activarModoWeb
  cases l with
  | none => exact ⟨rfl, rfl, rfl, rfl⟩
  | some t =>
    dsimp only
    split
    · split
      · exact ⟨rfl, rfl, rfl, rfl⟩
      · split
        · exact ⟨rfl, rfl, rfl, rfl⟩
        · exact ⟨rfl, rfl, rfl, rfl⟩
    · exact ⟨rfl, rfl, rfl, rfl⟩

/-- `reproducirFraseAleatoria` either leaves the state untouched (failure
paths) or produces a busy state around a freshly opened stream. -/
theorem reproducir_casos (fs : SistemaArchivos) (st : EstadoAudio)
    (numero : Nat) :
    reproducirFraseAleatoria fs st numero =
      (st, ResultadoReproduccion.archivoInexistente) ∨
    reproducirFraseAleatoria fs st numero =
      (st, ResultadoReproduccion.errorAlAbrir) ∨
    ∃ n, reproducirFraseAleatoria fs st numero =
      ({ reproduccion_en_curso := true, fuente := some n },
       ResultadoReproduccion.iniciada) := by
  by_cases hex : existe fs (nombreFrase numero) = true
  · cases habr : abrirFuente fs (nombreFrase numero) with
    | none =>
      refine Or.inr (Or.inl ?_)
      unfold reproducirFraseAleatoria
      simp [hex, habr]
    | some n =>
      refine Or.inr (Or.inr ⟨n, ?_⟩)
      unfold reproducirFraseAleatoria
      simp [hex, habr]
  · refine Or.inl ?_
    unfold reproducirFraseAleatoria
    simp [Bool.eq_false_iff.mpr hex]

/-- The failure paths of `reproducirFraseAleatoria` report the failure. -/
theorem reproducir_no_iniciada (fs : SistemaArchivos) (st : EstadoAudio)
    (numero : Nat)
    (h : (reproducirFraseAleatoria fs st numero).2 ≠
      ResultadoReproduccion.iniciada) :
    (reproducirFraseAleatoria fs st numero).1 = st := by
  rcases reproducir_casos fs st numero with hc | hc | ⟨n, hc⟩
  · rw [hc]
  · rw [hc]
  · rw [hc] at h; exact absurd rfl h

/-- Starting preserves the busy-flag invariant. -/
theorem reproducir_invariante (fs : SistemaArchivos) (st : EstadoAudio)
    (numero : Nat) (h : invariante st) :
    invariante (reproducirFraseAleatoria fs st numero).1 := by
  rcases reproducir_casos fs st numero with hc | hc | ⟨n, hc⟩ <;> rw [hc]
  · exact h
  · exact h
  · rfl

/-- Stepping the decoder preserves the busy-flag invariant. -/
theorem gestionar_invariante :
    ∀ a : EstadoAudio, invariante a →
      invariante (gestionarReproduccionAudio a)
  | ⟨false, f⟩, h => h
  | ⟨true, none⟩, h => by simp [invariante] at h
  | ⟨true, some 0⟩, _ => rfl
  | ⟨true, some (_ + 1)⟩, _ => rfl

/-- The decoder step does not start playback. -/
theorem gestionar_mono :
    ∀ a : EstadoAudio,
      (gestionarReproduccionAudio a).reproduccion_en_curso = true →
      a.reproduccion_en_curso = true
  | ⟨false, _⟩, h => h
  | ⟨true, _⟩, _ => rfl

/-- The decoder step on an idle session is the identity. -/
theorem gestionar_idle :
    ∀ a : EstadoAudio, a.reproduccion_en_curso = false →
      gestionarReproduccionAudio a = a
  | ⟨false, _⟩, _ => rfl

/-- When a busy session goes idle under the decoder step, the step is the
one that observed the stream's exhaustion. -/
theorem gestionar_agota :
    ∀ a : EstadoAudio, a.reproduccion_en_curso = true →
      (gestionarReproduccionAudio a).reproduccion_en_curso = false →
      a.fuente = some 0
  | ⟨true, none⟩, _, h2 => by simp [gestionarReproduccionAudio] at h2
  | ⟨true, some 0⟩, _, _ => rfl
  | ⟨true, some (_ + 1)⟩, _, h2 => by
      simp [gestionarReproduccionAudio] at h2

/-- One loop iteration, unfolded, with the field preservations of the
web and serial phases already applied: the iteration either restarts on
an accepted Reset edge, or updates the debounce states, possibly starts
playback (accepted Play edge while idle), and steps the decoder. -/
theorem pasoLoop_eq (s : Sistema) (e : Entrada) :
    pasoLoop s e =
      (if (pasoAntirrebote s.pulsadorReset e.nivel_reset e.ahora).1 then
        (PasoLoop.continua
          (sistemaInicial
            (leerComandoSerial (faseWeb s e.peticion) e.linea_serial
              e.demoraWifi).1.fs),
         (leerComandoSerial (faseWeb s e.peticion) e.linea_serial
           e.demoraWifi).2 + 100)
      else
        (PasoLoop.continua
          { (leerComandoSerial (faseWeb s e.peticion) e.linea_serial
              e.demoraWifi).1 with
            pulsadorPlay :=
              (pasoAntirrebote s.pulsadorPlay e.nivel_play e.ahora).2
            pulsadorReset :=
              (pasoAntirrebote s.pulsadorReset e.nivel_reset e.ahora).2
            audio := gestionarReproduccionAudio
              (if (pasoAntirrebote s.pulsadorPlay e.nivel_play e.ahora).1
                  && !s.audio.reproduccion_en_curso then
                (reproducirFraseAleatoria (faseWeb s e.peticion).fs s.audio
                  e.numero).1
              else s.audio) },
         (leerComandoSerial (faseWeb s e.peticion) e.linea_serial
           e.demoraWifi).2 + 0)) := by
  have hw := faseWeb_pulsadores s e.peticion
  have hwa := faseWeb_audio s e.peticion
  have hc := leerComandoSerial_campos (faseWeb s e.peticion) e.linea_serial
    e.demoraWifi
  simp only [pasoLoop, gestionarPulsadores]
  rw [hc.1, hc.2.1, hc.2.2.1, hc.2.2.2, hw.1, hw.2, hwa]
  cases hrr : (pasoAntirrebote s.pulsadorReset e.nivel_reset e.ahora).1 <;>
    simp [hrr]

/-- One iteration preserves the busy-flag invariant. -/
theorem pasoLoop_invariante (s s2 : Sistema) (e : Entrada)
    (h : (pasoLoop s e).1 = PasoLoop.continua s2)
    (hi : invariante s.audio) : invariante s2.audio := by
  rw [pasoLoop_eq] at h
  cases hrr : (pasoAntirrebote s.pulsadorReset e.nivel_reset e.ahora).1 with
  | true =>
    rw [hrr] at h
    simp at h
    rw [← h]
    rfl
  | false =>
    rw [hrr] at h
    simp at h
    rw [← h]
    apply gestionar_invariante
    split
    · exact reproducir_invariante _ _ _ hi
    · exact hi

/-- Every reachable state satisfies the busy-flag invariant. -/
theorem alcanzable_invariante (fs0 : SistemaArchivos) (s : Sistema)
    (h : Alcanzable fs0 s) : invariante s.audio := by
  induction h with
  | inicial => rfl
  | paso t t2 e _ hp ih => exact pasoLoop_invariante t t2 e hp ih

/-- A busy session observed idle after one iteration: either the Reset
edge restarted the process, or the decoder reported exhaustion. -/
theorem pasoLoop_ocupado_a_libre (s s2 : Sistema) (e : Entrada) (d : Nat)
    (h : pasoLoop s e = (PasoLoop.continua s2, d))
    (hb : s.audio.reproduccion_en_curso = true)
    (hb2 : s2.audio.reproduccion_en_curso = false) :
    (pasoAntirrebote s.pulsadorReset e.nivel_reset e.ahora).1 = true ∨
    s.audio.fuente = some 0 := by
  rw [pasoLoop_eq] at h
  cases hrr : (pasoAntirrebote s.pulsadorReset e.nivel_reset e.ahora).1 with
  | true => exact Or.inl rfl
  | false =>
    rw [hrr] at h
    simp at h
    refine Or.inr ?_
    obtain ⟨hs2, _⟩ := h
    rw [← hs2] at hb2
    simp [hb] at hb2
    exact gestionar_agota s.audio hb hb2

/-- An idle session observed busy after one iteration: the Play edge was
accepted by the debounce and the start operation succeeded. -/
theorem pasoLoop_libre_a_ocupado (s s2 : Sistema) (e : Entrada) (d : Nat)
    (h : pasoLoop s e = (PasoLoop.continua s2, d))
    (hb : s.audio.reproduccion_en_curso = false)
    (hb2 : s2.audio.reproduccion_en_curso = true) :
    (pasoAntirrebote s.pulsadorPlay e.nivel_play e.ahora).1 = true ∧
    (reproducirFraseAleatoria (faseWeb s e.peticion).fs s.audio e.numero).2 =
      ResultadoReproduccion.iniciada := by
  rw [pasoLoop_eq] at h
  cases hrr : (pasoAntirrebote s.pulsadorReset e.nivel_reset e.ahora).1 with
  | true =>
    rw [hrr] at h
    simp at h
    obtain ⟨hs2, _⟩ := h
    rw [← hs2] at hb2
    simp [sistemaInicial] at hb2
  | false =>
    rw [hrr] at h
    simp at h
    obtain ⟨hs2, _⟩ := h
    rw [← hs2] at hb2
    simp [hb] at hb2
    cases hrp : (pasoAntirrebote s.pulsadorPlay e.nivel_play e.ahora).1 with
    | false =>
      rw [hrp] at hb2
      simp [gestionar_idle s.audio hb, hb] at hb2
    | true =>
      refine ⟨rfl, ?_⟩
      rw [hrp] at hb2
      simp at hb2
      by_contra hni
      rw [reproducir_no_iniciada _ _ _ hni] at hb2
      rw [gestionar_idle s.audio hb] at hb2
      rw [hb] at hb2
      exact Bool.false_ne_true hb2

/-! ## Claims -/

/-- C1 counterexample: with the Playback Session Active (busy flag set,
a stream with five pending units open), invoking
`reproducirFraseAleatoria` directly on a storage where `/frase1.mp3`
exists and opens is NOT rejected: it reports success and replaces the
open stream (now three pending units), because the function itself
performs no `reproduccion_en_curso` check — the at-most-one-playback rule
lives only in the caller `gestionarPulsadores`. -/
theorem C1_counterexample :
    (reproducirFraseAleatoria fsEjemplo audioOcupado 1).2 =
      ResultadoReproduccion.iniciada ∧
    (reproducirFraseAleatoria fsEjemplo audioOcupado 1).1.fuente = some 3 ∧
    audioOcupado.fuente = some 5 ∧
    audioOcupado.reproduccion_en_curso = true := by decide

/-- C1 amended: while the session is Active, an iteration of
`gestionarPulsadores` never changes the session state — the
at-most-one-concurrent-playback rule is enforced by this caller (its
`!reproduccion_en_curso` guard), not inside `reproducirFraseAleatoria`,
which performs no busy check. -/
theorem C1_amended (s : Sistema) (np nr : Bool) (ahora numero : Nat)
    (s2 : Sistema) (d : Nat)
    (hb : s.audio.reproduccion_en_curso = true)
    (h : gestionarPulsadores s np nr ahora numero = (some s2, d)) :
    s2.audio = s.audio := by
  unfold gestionarPulsadores at h
  simp only [hb] at h
  split at h
  · exact absurd (congrArg Prod.fst h) (by simp)
  · simp at h
    rw [← h.1]

/-- C1 witness: the amended statement at a concrete input — Play pressed
at t = 100 ms while the session is busy leaves the session untouched. -/
theorem C1_witness : sOcupadoTrasPulsa.audio = sOcupado.audio :=
  C1_amended sOcupado false true 100 1 sOcupadoTrasPulsa 0 (by decide)
    (by decide)

/-- C2 counterexample: starting from the boot debounce state (resting
HIGH, last edge at 0), the trace sampling LOW at t = 100 and back HIGH at
t = 110 is a glitch that returns to the resting level 10 ms after the
transition — well inside the 50 ms debounce window — yet it emits one
Pressed event, not zero: the event fires immediately at the falling
edge. -/
theorem C2_counterexample :
    eventosAntirrebote { estado_anterior := true, ultimo_tiempo := 0 }
      [(false, 100), (true, 110)] = 1 ∧
    110 - 100 < demora_antirrebote := by decide

/-- C2 amended: the debounce is time-gated (refractory), not
edge-confirmed: a falling edge emits no event when it occurs within
`demora_antirrebote` ms of the previously recorded edge, and emits the
event immediately — without waiting for the level to hold — when more
than the window has elapsed, so a short glitch is suppressed only in the
former case. -/
theorem C2_amended :
    (∀ (p : EstadoPulsador) (nivel : Bool) (ahora : Nat),
      ahora - p.ultimo_tiempo ≤ demora_antirrebote →
      (pasoAntirrebote p nivel ahora).1 = false) ∧
    (∀ (p : EstadoPulsador) (ahora : Nat),
      p.estado_anterior = true →
      demora_antirrebote < ahora - p.ultimo_tiempo →
      (pasoAntirrebote p false ahora).1 = true) := by
  constructor
  · intro p nivel ahora h
    unfold pasoAntirrebote
    split
    · simp [Nat.not_lt.mpr h]
    · rfl
  · intro p ahora hp h
    simp [pasoAntirrebote, hp, h]

/-- C2 witness: the amended statement at concrete inputs — an edge 40 ms
after the previous one is suppressed; an edge 100 ms after the previous
one fires. -/
theorem C2_witness :
    (pasoAntirrebote { estado_anterior := true, ultimo_tiempo := 60 }
      false 100).1 = false ∧
    (pasoAntirrebote { estado_anterior := true, ultimo_tiempo := 0 }
      false 100).1 = true :=
  ⟨C2_amended.1 { estado_anterior := true, ultimo_tiempo := 60 } false 100
      (by decide),
   C2_amended.2 { estado_anterior := true, ultimo_tiempo := 0 } 100
      (by decide) (by decide)⟩

/-- C3: in every state reachable from boot, the busy flag equals "a
stream handle is open" (the handle being closed in the very iteration
whose decoder call detects exhaustion, an open handle is one not yet
detected exhausted); a busy-to-idle transition happens only through the
session's own exhaustion detection (`loop()` returning false on a stream
with `some 0` pending units) or the explicit stop of the hard-reset
restart path; an idle-to-busy transition happens only through a
debounce-accepted Play edge whose `reproducirFraseAleatoria` call
reports success. -/
theorem C3_session_lifecycle :
    (∀ (fs0 : SistemaArchivos) (s : Sistema), Alcanzable fs0 s →
      s.audio.reproduccion_en_curso = s.audio.fuente.isSome) ∧
    (∀ (s s2 : Sistema) (e : Entrada) (d : Nat),
      pasoLoop s e = (PasoLoop.continua s2, d) →
      s.audio.reproduccion_en_curso = true →
      s2.audio.reproduccion_en_curso = false →
      (pasoAntirrebote s.pulsadorReset e.nivel_reset e.ahora).1 = true ∨
      s.audio.fuente = some 0) ∧
    (∀ (s s2 : Sistema) (e : Entrada) (d : Nat),
      pasoLoop s e = (PasoLoop.continua s2, d) →
      s.audio.reproduccion_en_curso = false →
      s2.audio.reproduccion_en_curso = true →
      (pasoAntirrebote s.pulsadorPlay e.nivel_play e.ahora).1 = true ∧
      (reproducirFraseAleatoria (faseWeb s e.peticion).fs s.audio
        e.numero).2 = ResultadoReproduccion.iniciada) :=
  ⟨fun fs0 s h => alcanzable_invariante fs0 s h,
   fun s s2 e d h hb hb2 => pasoLoop_ocupado_a_libre s s2 e d h hb hb2,
   fun s s2 e d h hb hb2 => pasoLoop_libre_a_ocupado s s2 e d h hb hb2⟩

/-- C3 witness: the three parts at concrete inputs — the boot state
satisfies the invariant; an uneventful iteration taking the
about-to-finish clip to idle is explained by exhaustion; the iteration
pressing Play from idle is explained by an accepted edge and a
successful start. -/
theorem C3_witness :
    (sistemaInicial fsEjemplo).audio.reproduccion_en_curso =
      (sistemaInicial fsEjemplo).audio.fuente.isSome ∧
    ((pasoAntirrebote sOcupadoAgotado.pulsadorReset entradaNada.nivel_reset
        entradaNada.ahora).1 = true ∨
      sOcupadoAgotado.audio.fuente = some 0) ∧
    ((pasoAntirrebote (sistemaInicial fsEjemplo).pulsadorPlay
        entradaPulsa.nivel_play entradaPulsa.ahora).1 = true ∧
      (reproducirFraseAleatoria
        (faseWeb (sistemaInicial fsEjemplo) entradaPulsa.peticion).fs
        (sistemaInicial fsEjemplo).audio entradaPulsa.numero).2 =
        ResultadoReproduccion.iniciada) :=
  ⟨C3_session_lifecycle.1 fsEjemplo (sistemaInicial fsEjemplo)
      Alcanzable.inicial,
   C3_session_lifecycle.2.1 sOcupadoAgotado (sistemaInicial fsEjemplo)
      entradaNada 0 (by decide) (by decide) (by decide),
   C3_session_lifecycle.2.2 (sistemaInicial fsEjemplo) sTrasPulsa
      entradaPulsa 0 (by decide) (by decide) (by decide)⟩

/-- C4: starting from Idle on a resource that is missing from storage or
fails to open, `reproducirFraseAleatoria` reports the error
(`archivoInexistente` or `errorAlAbrir`), leaves the state exactly as it
was (still Idle, busy flag clear, no stream handle open), and leaves no
retry behind: a later call behaves exactly as if the failed attempt had
never happened, using only its own fresh draw. -/
theorem C4_start_failure (fs : SistemaArchivos) (st : EstadoAudio)
    (numero : Nat)
    (hocioso : st.reproduccion_en_curso = false)
    (hfuente : st.fuente = none)
    (hfalla : existe fs (nombreFrase numero) = false ∨
      abrirFuente fs (nombreFrase numero) = none) :
    (reproducirFraseAleatoria fs st numero).1 = st ∧
    ((reproducirFraseAleatoria fs st numero).2 =
        ResultadoReproduccion.archivoInexistente ∨
      (reproducirFraseAleatoria fs st numero).2 =
        ResultadoReproduccion.errorAlAbrir) ∧
    (reproducirFraseAleatoria fs st numero).1.reproduccion_en_curso =
      false ∧
    (reproducirFraseAleatoria fs st numero).1.fuente = none ∧
    (∀ numero2, reproducirFraseAleatoria fs
      (reproducirFraseAleatoria fs st numero).1 numero2 =
      reproducirFraseAleatoria fs st numero2) := by
  have hfail : reproducirFraseAleatoria fs st numero =
      (st, ResultadoReproduccion.archivoInexistente) ∨
      reproducirFraseAleatoria fs st numero =
        (st, ResultadoReproduccion.errorAlAbrir) := by
    by_cases hex : existe fs (nombreFrase numero) = true
    · have habr : abrirFuente fs (nombreFrase numero) = none := by
        rcases hfalla with hf | hf
        · rw [hf] at hex; exact absurd hex (by simp)
        · exact hf
      refine Or.inr ?_
      unfold reproducirFraseAleatoria
      simp [hex, habr]
    · refine Or.inl ?_
      unfold reproducirFraseAleatoria
      simp [Bool.eq_false_iff.mpr hex]
  rcases hfail with hf | hf
  · exact ⟨by rw [hf], Or.inl (by rw [hf]), by rw [hf]; exact hocioso,
      by rw [hf]; exact hfuente, fun numero2 => by rw [hf]⟩
  · exact ⟨by rw [hf], Or.inr (by rw [hf]), by rw [hf]; exact hocioso,
      by rw [hf]; exact hfuente, fun numero2 => by rw [hf]⟩

/-- C4 witness: start from Idle on empty storage (draw 1, so
`/frase1.mp3` does not exist): the state is unchanged and no stream
handle is left open. -/
theorem C4_witness :
    (reproducirFraseAleatoria fsVacio audioLibre 1).1 = audioLibre ∧
    (reproducirFraseAleatoria fsVacio audioLibre 1).1.fuente = none :=
  ⟨(C4_start_failure fsVacio audioLibre 1 (by decide) (by decide)
      (Or.inl (by decide))).1,
   (C4_start_failure fsVacio audioLibre 1 (by decide) (by decide)
      (Or.inl (by decide))).2.2.2.1⟩

/-- Removing a file indeed removes it. -/
theorem existe_remover (fs : SistemaArchivos) (ruta : String) :
    existe (remover fs ruta) ruta = false := by
  unfold existe remover
  simp only
  induction fs.archivos with
  | nil => rfl
  | cons a l ih =>
    by_cases h : a.1 == ruta <;> simp_all [List.filter_cons]

/-- A committed write is readable back. -/
theorem contenido_escribir (fs : SistemaArchivos) (ruta : String)
    (datos : List Nat) : contenido (escribir fs ruta datos) ruta =
      some datos := by
  simp [contenido, escribir, List.find?]

/-- Processing a concatenation of chunk lists is processing them in
sequence. -/
theorem procesar_append (b : Bool)
    (st : SistemaArchivos × Option (String × List Nat))
    (l1 l2 : List EventoSubida) :
    procesarEventosSubida b st (l1 ++ l2) =
      procesarEventosSubida b (procesarEventosSubida b st l1) l2 := by
  induction l1 generalizing st with
  | nil => rfl
  | cons ev resto ih =>
    simp only [List.cons_append, procesarEventosSubida]
    exact ih _

/-- While idle, a run of write chunks accumulates into the open handle
and touches neither storage nor the target name. -/
theorem procesar_escrituras (fs : SistemaArchivos) (nombre : String)
    (acc : List Nat) (trozos : List (List Nat)) :
    procesarEventosSubida false (fs, some (nombre, acc))
      (trozos.map EventoSubida.escritura) =
      (fs, some (nombre, acc ++ trozos.flatten)) := by
  induction trozos generalizing acc with
  | nil => simp [procesarEventosSubida]
  | cons t resto ih =>
    have h1 : handleFileUpload false fs (some (nombre, acc))
        (EventoSubida.escritura t) = (fs, some (nombre, acc ++ t), none) :=
      rfl
    simp only [List.map_cons, procesarEventosSubida, h1]
    rw [ih (acc ++ t)]
    simp [List.append_assoc]

/-- C5: while the Playback Session is Active, the first chunk of an
upload is answered 409 and an incoming delete is answered 409, and in
both cases the storage is returned exactly as it was (no file created,
truncated, or removed) and the upload handle is untouched. -/
theorem C5_conflict (fs : SistemaArchivos)
    (arch : Option (String × List Nat)) (nombre : String) (ok : Bool)
    (arg : Option String) :
    handleFileUpload true fs arch (EventoSubida.inicio nombre) =
      (fs, arch, some 409) ∧
    handleDelete true fs ok arg = (fs, ok, 409) := by
  constructor
  · rfl
  · rfl

/-- C6 counterexample: for the upload whose first chunk was accepted
while idle and whose remaining chunks (one write, then the terminal
chunk) arrive while the session is Active, the terminal chunk does NOT
commit the partial file: the write handle is still open afterwards
(`some`, not closed) and storage still does not contain `/a.mp3` — the
guard `if (reproduccion_en_curso) return;` drops the terminal chunk like
any other. -/
theorem C6_counterexample :
    subidaInterrumpida.2 = some ("/a.mp3", []) ∧
    existe subidaInterrumpida.1 "/a.mp3" = false ∧
    handleFileUpload true fsVacio (some ("/a.mp3", []))
      EventoSubida.fin = (fsVacio, some ("/a.mp3", []), none) := by
  decide

/-- C6 amended: while the Session is Active, every chunk other than the
first — data chunks AND the terminal chunk — is silently dropped (no
response, storage and write handle untouched, no close); the partial
file is committed at the terminal chunk only when the Session has
returned to Idle by the time that chunk arrives. -/
theorem C6_amended :
    (∀ (fs : SistemaArchivos) (arch : Option (String × List Nat))
      (ev : EventoSubida), esInicio ev = false →
      handleFileUpload true fs arch ev = (fs, arch, none)) ∧
    (∀ (fs : SistemaArchivos) (nombre : String) (datos : List Nat),
      handleFileUpload false fs (some (nombre, datos)) EventoSubida.fin =
        (escribir fs nombre datos, none, none)) := by
  constructor
  · intro fs arch ev h
    cases ev with
    | inicio nombre => simp [esInicio] at h
    | escritura datos => rfl
    | fin => rfl
  · intro fs nombre datos
    rfl

/-- C6 witness: the amended statement at concrete inputs — a terminal
chunk arriving while Active is dropped with the handle left open; the
same terminal chunk arriving after the Session went Idle commits the
partial file. -/
theorem C6_witness :
    handleFileUpload true fsVacio (some ("/a.mp3", [1]))
      EventoSubida.fin = (fsVacio, some ("/a.mp3", [1]), none) ∧
    handleFileUpload false fsVacio (some ("/a.mp3", [1]))
      EventoSubida.fin = (escribir fsVacio "/a.mp3" [1], none, none) :=
  ⟨C6_amended.1 fsVacio (some ("/a.mp3", [1])) EventoSubida.fin
      (by decide),
   C6_amended.2 fsVacio "/a.mp3" [1]⟩

/-- C7 counterexample: uploading over the existing `/a.mp3` (content
`[7]`), the old file is deleted as soon as the FIRST chunk is processed
— before any final chunk exists — so the replacement does not happen "on
the final chunk" as claimed: after only the first chunk the old resource
is already gone from storage. -/
theorem C7_counterexample :
    contenido fsConflicto "/a.mp3" = some [7] ∧
    existe (handleFileUpload false fsConflicto none
      (EventoSubida.inicio "a.mp3")).1 "/a.mp3" = false ∧
    (handleFileUpload false fsConflicto none
      (EventoSubida.inicio "a.mp3")).2.1 = some ("/a.mp3", []) := by
  decide

/-- C7 amended: replacement of an existing resource of the same name is
delete-then-write, not an atomic rename, with the delete performed at the
FIRST chunk of the transfer (the old file is gone from storage for the
whole rest of the transfer) and the new content committed at the final
chunk. -/
theorem C7_amended (fs : SistemaArchivos) (nombre : String)
    (trozos : List (List Nat))
    (hex : existe fs (normalizarNombre nombre) = true)
    (hesc : fs.fallaEscritura.contains (normalizarNombre nombre) = false) :
    existe (handleFileUpload false fs none
      (EventoSubida.inicio nombre)).1 (normalizarNombre nombre) = false ∧
    contenido (procesarEventosSubida false
      ((handleFileUpload false fs none (EventoSubida.inicio nombre)).1,
       (handleFileUpload false fs none (EventoSubida.inicio nombre)).2.1)
      (trozos.map EventoSubida.escritura ++ [EventoSubida.fin])).1
      (normalizarNombre nombre) = some trozos.flatten := by
  have hmem : normalizarNombre nombre ∉ fs.fallaEscritura := by
    simpa using hesc
  have hstart : handleFileUpload false fs none
      (EventoSubida.inicio nombre) =
      (remover fs (normalizarNombre nombre),
       some (normalizarNombre nombre, []), none) := by
    unfold handleFileUpload
    simp [esInicio, hex, remover, hmem]
  rw [hstart]
  constructor
  · exact existe_remover fs (normalizarNombre nombre)
  · rw [procesar_append, procesar_escrituras]
    simp only [List.nil_append, procesarEventosSubida, handleFileUpload]
    exact contenido_escribir _ _ _

/-- C7 witness: the amended statement at a concrete input — uploading
two chunks `[9]` and `[8]` over the existing `/a.mp3`: the old file is
gone right after the first chunk and the final chunk commits `[9, 8]`. -/
theorem C7_witness :
    existe (handleFileUpload false fsConflicto none
      (EventoSubida.inicio "a.mp3")).1 (normalizarNombre "a.mp3") =
      false ∧
    contenido (procesarEventosSubida false
      ((handleFileUpload false fsConflicto none
        (EventoSubida.inicio "a.mp3")).1,
       (handleFileUpload false fsConflicto none
        (EventoSubida.inicio "a.mp3")).2.1)
      ([[9], [8]].map EventoSubida.escritura ++ [EventoSubida.fin])).1
      (normalizarNombre "a.mp3") = some [9, 8] :=
  C7_amended fsConflicto "a.mp3" [[9], [8]] (by decide) (by decide)

/-- C10: when opening the target for writing fails at the start of a
transfer, the start leaves no handle and sends no response, every data
chunk and the terminal chunk are discarded without response or storage
mutation, and the upload completion handler still answers 303 — at the
HTTP interface the completely failed upload is indistinguishable from a
successful one. -/
theorem C10_silent_failure (fs : SistemaArchivos) (nombre : String)
    (datos : List Nat)
    (hfalla : fs.fallaEscritura.contains (normalizarNombre nombre) =
      true) :
    (handleFileUpload false fs none (EventoSubida.inicio nombre)).2.1 =
      none ∧
    (handleFileUpload false fs none (EventoSubida.inicio nombre)).2.2 =
      none ∧
    (∀ fs2 : SistemaArchivos, handleFileUpload false fs2 none
      (EventoSubida.escritura datos) = (fs2, none, none)) ∧
    (∀ fs2 : SistemaArchivos, handleFileUpload false fs2 none
      EventoSubida.fin = (fs2, none, none)) ∧
    (∀ fs2 : SistemaArchivos, (alCompletarSubida fs2).2 = 303) := by
  have hmem : normalizarNombre nombre ∈ fs.fallaEscritura := by
    simpa using hfalla
  have h1 : (handleFileUpload false fs none
      (EventoSubida.inicio nombre)).2 = (none, none) := by
    unfold handleFileUpload
    by_cases hex : existe fs (normalizarNombre nombre) = true <;>
      simp [esInicio, hex, remover, hmem]
  exact ⟨by rw [h1], by rw [h1], fun fs2 => rfl, fun fs2 => rfl,
    fun fs2 => rfl⟩

/-- C10 witness: the statement at a concrete input — uploading `x.mp3`
onto a storage whose open-for-write fails for `/x.mp3`. -/
theorem C10_witness :
    (handleFileUpload false fsSinEscritura none
      (EventoSubida.inicio "x.mp3")).2.1 = none ∧
    (handleFileUpload false fsSinEscritura none
      (EventoSubida.inicio "x.mp3")).2.2 = none :=
  ⟨(C10_silent_failure fsSinEscritura "x.mp3" [1] (by decide)).1,
   (C10_silent_failure fsSinEscritura "x.mp3" [1] (by decide)).2.1⟩

/-- C8: a SPIFFS mount failure at startup halts the process before the
event loop — `arrancar` yields no state, no iteration runs, no input is
polled — while no branch of the loop itself ever halts: every
per-component failure path inside `pasoLoop` continues to the next
iteration. -/
theorem C8_fatal_boundary :
    (∀ (fs : SistemaArchivos) (entradas : List Entrada),
      arrancar false fs entradas = none) ∧
    (∀ (s : Sistema) (e : Entrada),
      (pasoLoop s e).1 ≠ PasoLoop.detiene) := by
  constructor
  · intro fs entradas
    rfl
  · intro s e
    rw [pasoLoop_eq]
    cases hrr : (pasoAntirrebote s.pulsadorReset e.nivel_reset e.ahora).1 <;>
      simp [hrr]

/-- C9 counterexample: the loop iteration that dispatches the serial
command `web` while the WiFi association never completes spends
20 × 500 ms = 10000 ms inside `delay` — far beyond "a few milliseconds",
so the serial-command dispatch step does wait on a long-running
activity. -/
theorem C9_counterexample :
    (pasoLoop (sistemaInicial fsEjemplo) entradaWebLenta).2 = 10000 ∧
    100 < 10000 := by
  constructor
  · decide
  · decide

/-- C9 amended: iterations that neither dispatch the command `web` to a
not-yet-active server nor accept a Reset edge spend zero milliseconds in
`delay`; the bounded-work guarantee holds for every step except the
`web` dispatch (up to 10 s of WiFi waiting) and the Reset path (100 ms
flush). -/
theorem C9_amended (s : Sistema) (e : Entrada)
    (hserial : s.servidor_web_activo = true ∨
      ∀ l, e.linea_serial = some l → comandoEsWeb l = false)
    (hreset : (pasoAntirrebote s.pulsadorReset e.nivel_reset e.ahora).1 =
      false) :
    (pasoLoop s e).2 = 0 := by
  rw [pasoLoop_eq, hreset]
  have hact : (faseWeb s e.peticion).servidor_web_activo =
      s.servidor_web_activo := faseWeb_activo s e.peticion
  have h2 : (leerComandoSerial (faseWeb s e.peticion) e.linea_serial
      e.demoraWifi).2 = 0 := by
    unfold leerComandoSerial activarModoWeb
    cases hl : e.linea_serial with
    | none => rfl
    | some l =>
      rcases hserial with ha | hw
      · simp [hact, ha]
      · simp [hw l hl]
  simp [h2]

/-- C9 witness: the amended statement at a concrete input — the idle
iteration with no serial line and no press spends zero milliseconds in
`delay`. -/
theorem C9_witness :
    (pasoLoop (sistemaInicial fsEjemplo) entradaNada).2 = 0 :=
  C9_amended (sistemaInicial fsEjemplo) entradaNada
    (Or.inr (fun l h => Option.noConfusion h)) (by decide)
